import Mathlib

/-!
# Shallow embedding of the `ha_utility_costs` Home Assistant integration

This file embeds the parts of the integration that the verified properties
talk about:

* the JSON value model and the Python semantics the source relies on
  (dict `.get`, truthiness, `or` defaulting, `float(...)`, `round(...)`),
  from `sensor.py`, `coordinator.py` and `config_flow.py`;
* the URL construction of `coordinator.py` and `config_flow.py`;
* `_async_update_data` of both coordinators (`coordinator.py`);
* the provider-discovery and provider-validation helpers and the relevant
  slice of the two-step config flow (`config_flow.py`);
* every sensor projection of `sensor.py`.

Stateful host-framework behaviour (the `DataUpdateCoordinator` refresh loop)
is not part of this repository's sources; where a property needs it, it is
modelled from the specification and marked as such in its doc comment.
-/

/-- A JSON value, as produced by `resp.json()`.  Python `None` is `jnull`;
Python dicts are association lists in insertion order (CPython dicts preserve
insertion order and cannot hold duplicate keys). -/
inductive JValue where
  | jnull
  | jbool (b : Bool)
  | jnum (q : ℚ)
  | jstr (s : String)
  | jarr (items : List JValue)
  | jobj (fields : List (String × JValue))

/-- Python truthiness (`bool(x)`) on JSON values: `None`/`False`/`0`/`""` and
empty containers are falsy. -/
def JValue.truthy : JValue → Bool
  | .jnull => false
  | .jbool b => b
  | .jnum q => q != 0
  | .jstr s => s != ""
  | .jarr items => !items.isEmpty
  | .jobj fields => !fields.isEmpty

/-- Lookup in a dict's field list: `some v` when the key is present. -/
def jgetOpt (fields : List (String × JValue)) (k : String) : Option JValue :=
  (fields.find? (fun p => p.fst == k)).map Prod.snd

/-- Python `d.get(k)` on a dict: `None` (i.e. `jnull`) when the key is absent. -/
def pyGet (fields : List (String × JValue)) (k : String) : JValue :=
  (jgetOpt fields k).getD .jnull

/-- Python `d.get(k, default)` on a dict. -/
def pyGetD (fields : List (String × JValue)) (k : String) (dflt : JValue) : JValue :=
  (jgetOpt fields k).getD dflt

/-- Python `a or b`: `a` when truthy, otherwise `b`. -/
def pyOr (a b : JValue) : JValue :=
  if a.truthy then a else b

/-- The Python exceptions the embedded code can raise. -/
inductive PyErr where
  | typeError
  | valueError
  | attributeError
  deriving Repr, DecidableEq

/-- Python `v.get(k)` where `v` is an arbitrary value: an `AttributeError`
unless `v` is a dict. -/
def pyDictGet (v : JValue) (k : String) : Except PyErr JValue :=
  match v with
  | .jobj fields => .ok (pyGet fields k)
  | _ => .error .attributeError

/-- Python `v.get(k, default)` where `v` is an arbitrary value. -/
def pyDictGetD (v : JValue) (k : String) (dflt : JValue) : Except PyErr JValue :=
  match v with
  | .jobj fields => .ok (pyGetD fields k dflt)
  | _ => .error .attributeError

/-- Accumulate a fixed number of decimal digits from a character stream. -/
def readDigitsAux : Nat → Nat → List Char → Option (Nat × List Char)
  | 0, acc, cs => some (acc, cs)
  | n + 1, acc, c :: cs =>
      if c.isDigit then readDigitsAux n (acc * 10 + (c.toNat - 48)) cs else none
  | _ + 1, _, [] => none

/-- Digits of a nonempty digit list as a natural number. -/
def digitsToNat (cs : List Char) : Nat :=
  cs.foldl (fun acc c => acc * 10 + (c.toNat - 48)) 0

/-- The decimal-literal subset of Python `float(str)`: optional sign, then
digits with an optional fractional part (`"12"`, `"-3.5"`, `".25"`). -/
def parseFloatString (s : String) : Option ℚ :=
  let cs := ((s.data.dropWhile (·.isWhitespace)).reverse.dropWhile (·.isWhitespace)).reverse
  let signRest : ℚ × List Char :=
    match cs with
    | '-' :: r => (-1, r)
    | '+' :: r => (1, r)
    | r => (1, r)
  let sign := signRest.1
  let rest := signRest.2
  let intPart := rest.takeWhile (·.isDigit)
  let rest2 := rest.dropWhile (·.isDigit)
  match rest2 with
  | [] =>
      if intPart.isEmpty then none
      else some (sign * (digitsToNat intPart : ℚ))
  | '.' :: fracRest =>
      let fracPart := fracRest.takeWhile (·.isDigit)
      let tail := fracRest.dropWhile (·.isDigit)
      if tail.isEmpty && !(intPart.isEmpty && fracPart.isEmpty) then
        some (sign * ((digitsToNat intPart : ℚ)
          + (digitsToNat fracPart : ℚ) / (10 : ℚ) ^ fracPart.length))
      else none
  | _ => none

/-- Python `float(x)`: numbers pass through, booleans become 0/1, numeric
strings are parsed (`ValueError` otherwise), everything else is a
`TypeError`. -/
def pyFloat : JValue → Except PyErr ℚ
  | .jnum q => .ok q
  | .jbool b => .ok (if b then 1 else 0)
  | .jstr s =>
      match parseFloatString s with
      | some q => .ok q
      | none => .error .valueError
  | _ => .error .typeError

/-- Floor of a rational as an integer (`q.den` is positive, so Euclidean
division of the numerator by the denominator is the floor). -/
def ratFloor (q : ℚ) : Int :=
  Int.ediv q.num (q.den : Int)

/-- Python `round(q, nd)` on exact decimal inputs: round half to even at
`nd` decimal digits. -/
def pyRoundTo (nd : Nat) (q : ℚ) : ℚ :=
  let m : ℚ := (10 : ℚ) ^ nd
  let x := q * m
  let fl : Int := ratFloor x
  let frac : ℚ := x - (fl : ℚ)
  let r : Int :=
    if frac < 1 / 2 then fl
    else if 1 / 2 < frac then fl + 1
    else if fl % 2 = 0 then fl else fl + 1
  (r : ℚ) / m

/-! ## ISO-8601 timestamp parsing (`datetime.fromisoformat` subset)

`sensor.py` parses `fetched_at` with
`datetime.fromisoformat(fetched_at.replace("Z", "+00:00"))` and assumes UTC
when no offset is given.  The parser below covers the grammar the sensors
feed it: `YYYY-MM-DD`, optionally `T`/space plus `HH:MM[:SS[.f...]]`,
optionally a `+HH:MM`/`-HH:MM` offset.  Its result is an epoch timestamp in
seconds (a rational, to keep fractional seconds). -/

/-- Consume one expected character. -/
def expectChar (c : Char) : List Char → Option (List Char)
  | x :: xs => if x = c then some xs else none
  | [] => none

/-- Days in a month of the proleptic Gregorian calendar. -/
def daysInMonth (y m : Int) : Int :=
  if m = 2 then (if y % 4 = 0 ∧ (y % 100 ≠ 0 ∨ y % 400 = 0) then 29 else 28)
  else if m = 4 ∨ m = 6 ∨ m = 9 ∨ m = 11 then 30
  else 31

/-- Days since the Unix epoch of a civil date (Hinnant's algorithm; every
division below has nonnegative operands). -/
def daysFromCivil (y m d : Int) : Int :=
  let y1 := if m ≤ 2 then y - 1 else y
  let era : Int := (if 0 ≤ y1 then y1 else y1 - 399) / 400
  let yoe := y1 - era * 400
  let mp := (m + 9) % 12
  let doy := (153 * mp + 2) / 5 + d - 1
  let doe := yoe * 365 + yoe / 4 - yoe / 100 + doy
  era * 146097 + doe - 719468

/-- Parse `[+|-]HH:MM` as an offset in seconds. -/
def parseOffset (cs : List Char) : Option Int := do
  let (sgn, r0) ←
    match cs with
    | '+' :: r => some ((1 : Int), r)
    | '-' :: r => some ((-1 : Int), r)
    | _ => none
  let (oh, r1) ← readDigitsAux 2 0 r0
  let r2 ← expectChar ':' r1
  let (om, r3) ← readDigitsAux 2 0 r2
  if r3.isEmpty ∧ oh ≤ 23 ∧ om ≤ 59 then
    some (sgn * ((oh : Int) * 3600 + (om : Int) * 60))
  else none

/-- Parse an optional fractional-seconds suffix (`.d...`, 1–6 digits),
returning the fraction and the remaining characters. -/
def parseFraction (cs : List Char) : Option (ℚ × List Char) :=
  match cs with
  | '.' :: r =>
      let digs := r.takeWhile (·.isDigit)
      let rest := r.dropWhile (·.isDigit)
      if digs.isEmpty ∨ 6 < digs.length then none
      else some ((digitsToNat digs : ℚ) / (10 : ℚ) ^ digs.length, rest)
  | _ => some (0, cs)

/-- Parse the time-of-day part `HH:MM[:SS[.f...]]` followed by an optional
offset; returns seconds past midnight minus the offset. -/
def parseTimePart (cs : List Char) : Option ℚ := do
  let (h, r1) ← readDigitsAux 2 0 cs
  let r2 ← expectChar ':' r1
  let (mi, r3) ← readDigitsAux 2 0 r2
  if 23 < h ∨ 59 < mi then none
  else
    let secRest : Option (ℚ × List Char) :=
      match r3 with
      | ':' :: r4 =>
          match readDigitsAux 2 0 r4 with
          | some (s, r5) =>
              if 59 < s then none
              else
                match parseFraction r5 with
                | some (f, r6) => some ((s : ℚ) + f, r6)
                | none => none
          | none => none
      | _ => some (0, r3)
    match secRest with
    | none => none
    | some (sec, r6) =>
        let base : ℚ := (h : ℚ) * 3600 + (mi : ℚ) * 60 + sec
        if r6.isEmpty then some base
        else
          match parseOffset r6 with
          | some off => some (base - (off : ℚ))
          | none => none

/-- Parse an ISO-8601 timestamp to an epoch value in seconds, assuming UTC
when no offset is present (as the sensors do). -/
def parseIsoToEpoch (s : String) : Option ℚ := do
  let cs := s.data
  let (y, r1) ← readDigitsAux 4 0 cs
  let r2 ← expectChar '-' r1
  let (mo, r3) ← readDigitsAux 2 0 r2
  let r4 ← expectChar '-' r3
  let (d, r5) ← readDigitsAux 2 0 r4
  if mo < 1 ∨ 12 < mo ∨ d < 1 ∨ daysInMonth (y : Int) (mo : Int) < (d : Int) then none
  else
    let dayEpoch : ℚ := ((daysFromCivil (y : Int) (mo : Int) (d : Int)) : ℚ) * 86400
    match r5 with
    | [] => some dayEpoch
    | sep :: r6 =>
        if sep = 'T' ∨ sep = ' ' then
          match parseTimePart r6 with
          | some t => some (dayEpoch + t)
          | none => none
        else none

/-! ## URL construction (`coordinator.py`, `config_flow.py`) -/

/-- Python `s.rstrip("/")`: drop every trailing slash. -/
def pyRstripSlash (s : String) : String :=
  ⟨(s.data.reverse.dropWhile (· == '/')).reverse⟩

/-- `ElectricRatesCoordinator`: `self.api_url = entry.data[CONF_API_URL].rstrip("/")`
then `url = f"{self.api_url}/rates/electric/{self.provider}/residential"`. -/
def electricRatesUrl (apiUrl provider : String) : String :=
  pyRstripSlash apiUrl ++ "/rates/electric/" ++ provider ++ "/residential"

/-- `WaterRatesCoordinator`: `url = f"{self.api_url}/water/rates/{self.provider}"`. -/
def waterRatesUrl (apiUrl provider : String) : String :=
  pyRstripSlash apiUrl ++ "/water/rates/" ++ provider

/-- `_validate_electric_provider`: `url = f"{api_url}/rates/electric/{provider_key}/residential"`
after `api_url = api_url.rstrip("/")`. -/
def validateElectricUrl (apiUrl providerKey : String) : String :=
  pyRstripSlash apiUrl ++ "/rates/electric/" ++ providerKey ++ "/residential"

/-- `_validate_water_provider`: `url = f"{api_url}/water/rates/{provider_key}"`. -/
def validateWaterUrl (apiUrl providerKey : String) : String :=
  pyRstripSlash apiUrl ++ "/water/rates/" ++ providerKey

/-- `_fetch_electric_providers`: `url = f"{api_url}/providers"`. -/
def electricProvidersUrl (apiUrl : String) : String :=
  pyRstripSlash apiUrl ++ "/providers"

/-- `_fetch_water_providers`: `url = f"{api_url}/water/providers"`. -/
def waterProvidersUrl (apiUrl : String) : String :=
  pyRstripSlash apiUrl ++ "/water/providers"

/-! ## Sensor projections (`sensor.py`)

A cached document is the coordinator's `data`; both coordinators guarantee it
is a JSON object (they raise `UpdateFailed("Response is not a JSON object")`
otherwise), so a document is a field list.  Each sensor's `native_value` is
embedded as a function of `Option Doc` (the coordinator may not have data)
returning `Except PyErr (Option ℚ)`: `.error` is an uncaught Python
exception, `.ok none` is Home Assistant's Unknown (`None`), `.ok (some q)` a
value.  Timestamps are epoch seconds. -/

/-- A cached rate document: the fields of the JSON object. -/
def Doc := List (String × JValue)

/-- `data = self.coordinator.data or {}` (the cached document is a dict or
`None`; `or {}` turns `None` — and an empty dict — into `{}`). -/
def coordDocOr (cdata : Option Doc) : Doc :=
  cdata.getD []

/-- The shared passthrough idiom of the simple sensors:
`if x is None: return None` then `try: return float(x)
except (TypeError, ValueError): return None`. -/
def tryFloatOrNone (v : JValue) : Except PyErr (Option ℚ) :=
  match v with
  | .jnull => .ok none
  | v =>
      match pyFloat v with
      | .ok q => .ok (some q)
      | .error _ => .ok none

/-- `_get_residential_standard` (sensor.py): walk `rates.residential_standard`
with `or {}` defaults and gate on the truthiness of `is_present`. -/
def getResidentialStandard (data : Doc) : Except PyErr (Option JValue) :=
  let rates := pyOr (pyGet data "rates") (.jobj [])
  match pyDictGet rates "residential_standard" with
  | .error e => .error e
  | .ok rsRaw =>
      let rs := pyOr rsRaw (.jobj [])
      match pyDictGet rs "is_present" with
      | .error e => .error e
      | .ok isp => if isp.truthy then .ok (some rs) else .ok none

/-- `EnergyRateSensor.native_value`: sum of energy and fuel rates with `or 0.0`
defaults; `float` failures are caught and yield Unknown. -/
def energyRateValue (cdata : Option Doc) : Except PyErr (Option ℚ) :=
  let data := coordDocOr cdata
  match getResidentialStandard data with
  | .error e => .error e
  | .ok none => .ok none
  | .ok (some rs) =>
      if !rs.truthy then .ok none
      else
        match pyDictGet rs "energy_rate_usd_per_kwh", pyDictGet rs "tva_fuel_rate_usd_per_kwh" with
        | .ok energyRaw, .ok fuelRaw =>
            let energy := pyOr energyRaw (.jnum 0)
            let fuel := pyOr fuelRaw (.jnum 0)
            match pyFloat energy, pyFloat fuel with
            | .ok e, .ok f => .ok (some (e + f))
            | _, _ => .ok none
        | .error e, _ => .error e
        | _, .error e => .error e

/-- `FixedChargeSensor.native_value`: `customer_charge_monthly_usd`
passthrough; `None` and `float` failures yield Unknown. -/
def fixedChargeValue (cdata : Option Doc) : Except PyErr (Option ℚ) :=
  let data := coordDocOr cdata
  match getResidentialStandard data with
  | .error e => .error e
  | .ok none => .ok none
  | .ok (some rs) =>
      if !rs.truthy then .ok none
      else
        match pyDictGet rs "customer_charge_monthly_usd" with
        | .error e => .error e
        | .ok val => tryFloatOrNone val

/-- `EnergyPriceSensor.native_value`: `round(float(rs.get(e, 0)) + float(rs.get(f, 0)), 5)`
with no exception handler around the `float` calls. -/
def energyPriceValue (cdata : Option Doc) : Except PyErr (Option ℚ) :=
  match getResidentialStandard (coordDocOr cdata) with
  | .error e => .error e
  | .ok none => .ok none
  | .ok (some rs) =>
      if !rs.truthy then .ok none
      else
        match pyDictGetD rs "energy_rate_usd_per_kwh" (.jnum 0) with
        | .error e => .error e
        | .ok energyRaw =>
            match pyFloat energyRaw with
            | .error e => .error e
            | .ok energy =>
                match pyDictGetD rs "tva_fuel_rate_usd_per_kwh" (.jnum 0) with
                | .error e => .error e
                | .ok fuelRaw =>
                    match pyFloat fuelRaw with
                    | .error e => .error e
                    | .ok fuel => .ok (some (pyRoundTo 5 (energy + fuel)))

/-- `DailyFixedCostSensor.native_value`: `round(float(rs.get(c, 0)) / 30.0, 5)`
with no exception handler around the `float` call. -/
def dailyFixedCostValue (cdata : Option Doc) : Except PyErr (Option ℚ) :=
  match getResidentialStandard (coordDocOr cdata) with
  | .error e => .error e
  | .ok none => .ok none
  | .ok (some rs) =>
      if !rs.truthy then .ok none
      else
        match pyDictGetD rs "customer_charge_monthly_usd" (.jnum 0) with
        | .error e => .error e
        | .ok monthlyRaw =>
            match pyFloat monthlyRaw with
            | .error e => .error e
            | .ok monthly => .ok (some (pyRoundTo 5 (monthly / 30)))

/-- `MonthlyFixedCostSensor.native_value`: `float(rs.get(c, 0))` with no
exception handler around the `float` call. -/
def monthlyFixedCostValue (cdata : Option Doc) : Except PyErr (Option ℚ) :=
  match getResidentialStandard (coordDocOr cdata) with
  | .error e => .error e
  | .ok none => .ok none
  | .ok (some rs) =>
      if !rs.truthy then .ok none
      else
        match pyDictGetD rs "customer_charge_monthly_usd" (.jnum 0) with
        | .error e => .error e
        | .ok monthlyRaw =>
            match pyFloat monthlyRaw with
            | .error e => .error e
            | .ok monthly => .ok (some monthly)

/-- Fuel-bounded engine of `pyStrReplace` (the fuel starts above the input
length, so it never runs out for a nonempty pattern). -/
def replaceFuel (pat rep : List Char) : Nat → List Char → List Char
  | 0, cs => cs
  | _ + 1, [] => []
  | fuel + 1, c :: cs =>
      if (c :: cs).take pat.length = pat then
        rep ++ replaceFuel pat rep fuel ((c :: cs).drop pat.length)
      else c :: replaceFuel pat rep fuel cs

/-- Python `s.replace(pat, rep)` for a nonempty pattern: replace each
non-overlapping occurrence, scanning left to right. -/
def pyStrReplace (s pat rep : String) : String :=
  ⟨replaceFuel pat.data rep.data (s.data.length + 1) s.data⟩

/-- Shared body of the `fetched_at` timestamp sensors: everything after the
truthiness check sits in a `try` whose `except Exception` returns `None`, so
non-strings and parse failures yield Unknown. -/
def fetchedAtEpoch (data : Doc) : Option ℚ :=
  let fetchedAt := pyGet data "fetched_at"
  if !fetchedAt.truthy then none
  else
    match fetchedAt with
    | .jstr s => parseIsoToEpoch (pyStrReplace s "Z" "+00:00")
    | _ => none

/-- `RatesLastRefreshSensor.native_value` (electric): parsed `fetched_at`
as an epoch timestamp, UTC assumed when no offset is present. -/
def ratesLastRefreshValue (cdata : Option Doc) : Except PyErr (Option ℚ) :=
  .ok (fetchedAtEpoch (coordDocOr cdata))

/-- `RatesAgeHoursSensor.native_value` (electric):
`round((now - parsed).total_seconds() / 3600.0, 2)`; `now` is the wall clock
at projection time, an input the document does not determine. -/
def ratesAgeHoursValue (now : ℚ) (cdata : Option Doc) : Except PyErr (Option ℚ) :=
  .ok ((fetchedAtEpoch (coordDocOr cdata)).map (fun t => pyRoundTo 2 ((now - t) / 3600)))

/-- `WaterRatesLastRefreshSensor.native_value`: same body as the electric
variant. -/
def waterRatesLastRefreshValue (cdata : Option Doc) : Except PyErr (Option ℚ) :=
  .ok (fetchedAtEpoch (coordDocOr cdata))

/-- `WaterRatesAgeHoursSensor.native_value`: same body as the electric
variant. -/
def waterRatesAgeHoursValue (now : ℚ) (cdata : Option Doc) : Except PyErr (Option ℚ) :=
  .ok ((fetchedAtEpoch (coordDocOr cdata)).map (fun t => pyRoundTo 2 ((now - t) / 3600)))

/-- `WaterUsageRateSensor.native_value`: `water.use_rate` passthrough with
`or {}` on the container and a guarded `float`. -/
def waterUsageRateValue (cdata : Option Doc) : Except PyErr (Option ℚ) :=
  let data := coordDocOr cdata
  let water := pyOr (pyGet data "water") (.jobj [])
  match pyDictGet water "use_rate" with
  | .error e => .error e
  | .ok useRate => tryFloatOrNone useRate

/-- `WaterBaseChargeSensor.native_value`: `water.base_charge` passthrough. -/
def waterBaseChargeValue (cdata : Option Doc) : Except PyErr (Option ℚ) :=
  let data := coordDocOr cdata
  let water := pyOr (pyGet data "water") (.jobj [])
  match pyDictGet water "base_charge" with
  | .error e => .error e
  | .ok base => tryFloatOrNone base

/-- `SewerUsageRateSensor.native_value`: `sewer = data.get("sewer")`, Unknown
when `sewer` is falsy (in particular when the key is absent). -/
def sewerUsageRateValue (cdata : Option Doc) : Except PyErr (Option ℚ) :=
  let data := coordDocOr cdata
  let sewer := pyGet data "sewer"
  if !sewer.truthy then .ok none
  else
    match pyDictGet sewer "use_rate" with
    | .error e => .error e
    | .ok useRate => tryFloatOrNone useRate

/-- `SewerBaseChargeSensor.native_value`: `sewer.base_charge` with the same
falsiness gate. -/
def sewerBaseChargeValue (cdata : Option Doc) : Except PyErr (Option ℚ) :=
  let data := coordDocOr cdata
  let sewer := pyGet data "sewer"
  if !sewer.truthy then .ok none
  else
    match pyDictGet sewer "base_charge" with
    | .error e => .error e
    | .ok base => tryFloatOrNone base

/-! ## Rate fetching (`coordinator.py`) -/

/-- The outcome of `session.get(...)` plus `resp.json()`: a transport-level
exception (connection failure or timeout), or a response with a status and a
body — `.error ()` standing for a body `resp.json()` cannot parse. -/
inductive FetchOutcome where
  | transportError
  | response (status : Nat) (body : Except Unit JValue)

/-- The `UpdateFailed` variants `_async_update_data` raises, distinguished by
the messages in the source. -/
inductive UpdateErr where
  | httpStatus (status : Nat)
  | fetchException
  | notJsonObject
  deriving Repr, DecidableEq

/-- `ElectricRatesCoordinator._async_update_data`: non-200 raises
`UpdateFailed(f"HTTP {status} from {url}")`; any exception from the request
or `resp.json()` is wrapped into `UpdateFailed(f"Error fetching ...")`; a
non-dict body raises `UpdateFailed("Response is not a JSON object")`; any
dict body — with or without a `rates` key — is returned. -/
def electricUpdateData (f : FetchOutcome) : Except UpdateErr Doc :=
  match f with
  | .transportError => .error .fetchException
  | .response status body =>
      if status ≠ 200 then .error (.httpStatus status)
      else
        match body with
        | .error _ => .error .fetchException
        | .ok data =>
            match data with
            | .jobj fields => .ok fields
            | _ => .error .notJsonObject

/-- `WaterRatesCoordinator._async_update_data`: textually the same body as
the electric coordinator (only the URL differs); any dict body — with or
without a `water` key — is returned. -/
def waterUpdateData (f : FetchOutcome) : Except UpdateErr Doc :=
  match f with
  | .transportError => .error .fetchException
  | .response status body =>
      if status ≠ 200 then .error (.httpStatus status)
      else
        match body with
        | .error _ => .error .fetchException
        | .ok data =>
            match data with
            | .jobj fields => .ok fields
            | _ => .error .notJsonObject

/-! ## Refresh state (host `DataUpdateCoordinator`, modelled from the spec) -/

/-- The coordinator's refresh state: the cached document (absent before the
first success) and the last-success flag. -/
structure CoordinatorState where
  data : Option Doc
  last_update_success : Bool

/-- Modelled from the spec: the host's `DataUpdateCoordinator` refresh step
(`homeassistant.helpers.update_coordinator`, not part of this repository's
sources).  On success the cached document is replaced and the flag flips
true; on `UpdateFailed` the cached document is left unchanged, the flag flips
false, and nothing propagates out of the polling loop. -/
def applyRefresh (st : CoordinatorState) (r : Except UpdateErr Doc) : CoordinatorState :=
  match r with
  | .ok d => ⟨some d, true⟩
  | .error _ => ⟨st.data, false⟩

/-- Modelled from the spec: `async_config_entry_first_refresh` (host code)
together with the `try`/`raise` in `async_setup_entry` — the very first fetch
propagates its failure so the config entry does not activate without one
successful fetch. -/
def firstRefresh (r : Except UpdateErr Doc) : Except UpdateErr CoordinatorState :=
  match r with
  | .ok d => .ok ⟨some d, true⟩
  | .error e => .error e

/-! ## Sensor families and availability (`sensor.py`) -/

/-- The electric sensors `_create_electric_sensors` registers. -/
inductive ElectricSensorKind where
  | totalRate
  | fixedCharge
  | lastRefresh
  | ageHours
  | energyPrice
  | dailyFixedCost
  | monthlyFixedCost
  deriving Repr, DecidableEq

/-- The water sensors `_create_water_sensors` registers. -/
inductive WaterSensorKind where
  | waterUsageRate
  | waterBaseCharge
  | sewerUsageRate
  | sewerBaseCharge
  | lastRefresh
  | ageHours
  deriving Repr, DecidableEq

/-- The `native_value` of each electric sensor, as a function of the wall
clock and the cached document (only the age sensor reads the clock). -/
def electricSensorValue : ElectricSensorKind → ℚ → Option Doc → Except PyErr (Option ℚ)
  | .totalRate, _, d => energyRateValue d
  | .fixedCharge, _, d => fixedChargeValue d
  | .lastRefresh, _, d => ratesLastRefreshValue d
  | .ageHours, now, d => ratesAgeHoursValue now d
  | .energyPrice, _, d => energyPriceValue d
  | .dailyFixedCost, _, d => dailyFixedCostValue d
  | .monthlyFixedCost, _, d => monthlyFixedCostValue d

/-- The `native_value` of each water sensor. -/
def waterSensorValue : WaterSensorKind → ℚ → Option Doc → Except PyErr (Option ℚ)
  | .waterUsageRate, _, d => waterUsageRateValue d
  | .waterBaseCharge, _, d => waterBaseChargeValue d
  | .sewerUsageRate, _, d => sewerUsageRateValue d
  | .sewerBaseCharge, _, d => sewerBaseChargeValue d
  | .lastRefresh, _, d => waterRatesLastRefreshValue d
  | .ageHours, now, d => waterRatesAgeHoursValue now d

/-- `BaseElectricSensor.available`, inherited unchanged by every electric
sensor: `self.coordinator.last_update_success`. -/
def electricSensorAvailable (_k : ElectricSensorKind) (st : CoordinatorState) : Bool :=
  st.last_update_success

/-- `BaseWaterSensor.available`, inherited unchanged by every water sensor. -/
def waterSensorAvailable (_k : WaterSensorKind) (st : CoordinatorState) : Bool :=
  st.last_update_success

/-! ## Provider validation (`config_flow.py`) -/

/-- The outcomes of `_validate_electric_provider` / `_validate_water_provider`:
the distinguished `ValueError`s raised in the source, plus `uncaughtException`
for errors raised outside the `try` (e.g. `"rates" in data` on a number). -/
inductive ValidateErr where
  | unauthorized
  | providerNotFound
  | httpStatus (status : Nat)
  | connectionError
  | missingKey
  | uncaughtException
  deriving Repr, DecidableEq

/-- `needle in hay` for Python strings: substring containment. -/
def strContainsSub (hay needle : String) : Bool :=
  (hay.splitOn needle).length != 1

/-- Python `==` restricted to hashable JSON scalars (booleans compare equal
to their numeric value, as in Python); containers never compare equal here
because the call sites only compare against a string literal. -/
def flatJBeq : JValue → JValue → Bool
  | .jnull, .jnull => true
  | .jbool a, .jbool b => a == b
  | .jnum a, .jnum b => a == b
  | .jbool a, .jnum b => (if a then (1 : ℚ) else 0) == b
  | .jnum a, .jbool b => a == (if b then (1 : ℚ) else 0)
  | .jstr a, .jstr b => a == b
  | _, _ => false

/-- Python `k in v`: key membership for dicts, element membership for lists,
substring for strings, `TypeError` otherwise. -/
def pyContains (v : JValue) (k : String) : Except PyErr Bool :=
  match v with
  | .jobj fields => .ok (fields.any (fun p => p.fst == k))
  | .jarr items => .ok (items.any (fun it => flatJBeq it (.jstr k)))
  | .jstr s => .ok (strContainsSub s k)
  | _ => .error .typeError

/-- `_validate_electric_provider`: status-specific `ValueError`s, wrapped
connection errors, then `if "rates" not in data: raise ValueError(...)`
before returning `{"title": ..., "utility": data.get("utility")}`. -/
def validateElectricProvider (providerKey : String) (f : FetchOutcome) :
    Except ValidateErr (String × JValue) :=
  match f with
  | .transportError => .error .connectionError
  | .response status body =>
      if status = 401 then .error .unauthorized
      else if status = 404 then .error .providerNotFound
      else if status ≠ 200 then .error (.httpStatus status)
      else
        match body with
        | .error _ => .error .connectionError
        | .ok data =>
            match pyContains data "rates" with
            | .error _ => .error .uncaughtException
            | .ok false => .error .missingKey
            | .ok true =>
                match pyDictGet data "utility" with
                | .error _ => .error .uncaughtException
                | .ok util => .ok ("Electric Rates (" ++ providerKey.toUpper ++ ")", util)

/-- `_validate_water_provider`: same shape with the `water` key and
`{"title": ..., "provider_name": data.get("provider_name")}`. -/
def validateWaterProvider (providerKey : String) (f : FetchOutcome) :
    Except ValidateErr (String × JValue) :=
  match f with
  | .transportError => .error .connectionError
  | .response status body =>
      if status = 401 then .error .unauthorized
      else if status = 404 then .error .providerNotFound
      else if status ≠ 200 then .error (.httpStatus status)
      else
        match body with
        | .error _ => .error .connectionError
        | .ok data =>
            match pyContains data "water" with
            | .error _ => .error .uncaughtException
            | .ok false => .error .missingKey
            | .ok true =>
                match pyDictGet data "provider_name" with
                | .error _ => .error .uncaughtException
                | .ok name => .ok ("Water Rates (" ++ providerKey.toUpper ++ ")", name)

/-! ## Provider discovery (`config_flow.py`, `const.py`) -/

/-- `STATIC_ELECTRIC_PROVIDERS` from `const.py`, in insertion order. -/
def staticElectricProviders : List (JValue × JValue) :=
  [(.jstr "CEMC", .jstr "cemc"), (.jstr "NES", .jstr "nes"), (.jstr "KUB", .jstr "kub")]

/-- `STATIC_WATER_PROVIDERS` from `const.py`. -/
def staticWaterProviders : List (JValue × JValue) :=
  [(.jstr "WHUD", .jstr "whud")]

/-- Whether a JSON value is hashable in Python (usable as a dict key). -/
def jvalHashable : JValue → Bool
  | .jarr _ => false
  | .jobj _ => false
  | _ => true

/-- `providers[name] = key` on a dict kept in insertion order: overwrite in
place when an equal key exists, append otherwise; unhashable names raise
`TypeError`. -/
def assocInsert (m : List (JValue × JValue)) (name key : JValue) :
    Except PyErr (List (JValue × JValue)) :=
  if !jvalHashable name then .error .typeError
  else if m.any (fun p => flatJBeq p.fst name) then
    .ok (m.map (fun p => if flatJBeq p.fst name then (p.fst, key) else p))
  else .ok (m ++ [(name, key)])

/-- The `for item in items` loop of both provider-fetch helpers:
`key = item.get("key")`, `name = item.get("name") or key`, and
`providers[name] = key` when `key` is truthy.  Exceptions (non-dict items,
unhashable names) propagate. -/
def collectProviders : List JValue → List (JValue × JValue) →
    Except PyErr (List (JValue × JValue))
  | [], acc => .ok acc
  | item :: rest, acc =>
      match pyDictGet item "key" with
      | .error e => .error e
      | .ok key =>
          match pyDictGet item "name" with
          | .error e => .error e
          | .ok nameRaw =>
              let name := pyOr nameRaw key
              if key.truthy then
                match assocInsert acc name key with
                | .error e => .error e
                | .ok acc1 => collectProviders rest acc1
              else collectProviders rest acc

/-- How a provider-fetch helper fails: every error raised inside its `try`
is re-raised as (or already is) a `ValueError`; errors raised after the
`try` while picking the response apart (`data.get` on a non-dict, iterating
a non-list, non-dict items) are other exception types. -/
inductive ProvFetchErr where
  | valueError
  | otherException
  deriving Repr, DecidableEq

/-- Shared body of `_fetch_electric_providers` / `_fetch_water_providers`
after the HTTP part: `items = data.get("providers") or []`, the collection
loop, and the static-table fallback when no providers were parsed.
Iterating a truthy non-list (dict, string, number) ends in an exception —
`AttributeError`/`TypeError` — for every JSON value, folded into
`otherException`. -/
def parseProvidersBody (static : List (JValue × JValue)) (data : JValue) :
    Except ProvFetchErr (List (JValue × JValue)) :=
  match pyDictGet data "providers" with
  | .error _ => .error .otherException
  | .ok provRaw =>
      match pyOr provRaw (.jarr []) with
      | .jarr items =>
          match collectProviders items [] with
          | .error _ => .error .otherException
          | .ok provs => if provs.isEmpty then .ok static else .ok provs
      | _ => .error .otherException

/-- `_fetch_electric_providers`: HTTP and JSON failures become `ValueError`s
(raised directly for 401/404/non-200, or by wrapping in the `except` clause);
then the response is parsed with the static fallback for an empty result. -/
def fetchElectricProviders (f : FetchOutcome) :
    Except ProvFetchErr (List (JValue × JValue)) :=
  match f with
  | .transportError => .error .valueError
  | .response status body =>
      if status = 401 then .error .valueError
      else if status = 404 then .error .valueError
      else if status ≠ 200 then .error .valueError
      else
        match body with
        | .error _ => .error .valueError
        | .ok data => parseProvidersBody staticElectricProviders data

/-- `_fetch_water_providers`: same body with the water static table. -/
def fetchWaterProviders (f : FetchOutcome) :
    Except ProvFetchErr (List (JValue × JValue)) :=
  match f with
  | .transportError => .error .valueError
  | .response status body =>
      if status = 401 then .error .valueError
      else if status = 404 then .error .valueError
      else if status ≠ 200 then .error .valueError
      else
        match body with
        | .error _ => .error .valueError
        | .ok data => parseProvidersBody staticWaterProviders data

/-! ## Config-flow step 1 (`ConfigFlow.async_step_user`) -/

/-- What step 1 does with the discovery result: a `ValueError` re-shows the
form with a `cannot_connect` error; any other exception falls back to the
static table and proceeds to the provider step; success proceeds with the
fetched providers. -/
inductive StepUserOutcome where
  | errorForm
  | proceed (providers : List (JValue × JValue))

/-- `async_step_user` (electric branch) after the user submitted step 1. -/
def stepUserElectric (f : FetchOutcome) : StepUserOutcome :=
  match fetchElectricProviders f with
  | .ok provs => .proceed provs
  | .error .valueError => .errorForm
  | .error .otherException => .proceed staticElectricProviders

/-- `async_step_user` (water branch) after the user submitted step 1. -/
def stepUserWater (f : FetchOutcome) : StepUserOutcome :=
  match fetchWaterProviders f with
  | .ok provs => .proceed provs
  | .error .valueError => .errorForm
  | .error .otherException => .proceed staticWaterProviders

/-! ## Helper lemmas -/

/-- `pyOr v {}` is the identity on objects: an empty object falls through to
the (equal) empty-object default. -/
theorem pyOr_jobj (l : List (String × JValue)) :
    pyOr (.jobj l) (.jobj []) = .jobj l := by
  cases l <;> simp [pyOr, JValue.truthy]

/-- A successful key lookup forces the object to be nonempty, hence truthy. -/
theorem jobj_truthy_of_pyGet_truthy (l : List (String × JValue)) (k : String)
    (h : (pyGet l k).truthy = true) : (JValue.jobj l).truthy = true := by
  cases l with
  | nil => simp [pyGet, jgetOpt, JValue.truthy] at h
  | cons a as => simp [JValue.truthy]

/-- `pyDictGet` succeeds only on objects. -/
theorem pyDictGet_ok_obj (v : JValue) (k : String) (x : JValue)
    (h : pyDictGet v k = .ok x) : ∃ l, v = .jobj l := by
  cases v <;> simp [pyDictGet] at h ⊢

/-- Evaluate `_get_residential_standard` on a document whose `rates` and
`rates.residential_standard` entries are objects. -/
theorem getRS_eval (fs rts rsf : List (String × JValue))
    (h1 : jgetOpt fs "rates" = some (.jobj rts))
    (h2 : jgetOpt rts "residential_standard" = some (.jobj rsf)) :
    getResidentialStandard fs =
      if (pyGet rsf "is_present").truthy then .ok (some (.jobj rsf)) else .ok none := by
  simp [getResidentialStandard, pyGet, h1, h2, pyOr_jobj, pyDictGet]

/-- Appending a trailing slash to the base URL does not change the stripped
base. -/
theorem pyRstripSlash_append_slash (s : String) :
    pyRstripSlash (s ++ "/") = pyRstripSlash s := by
  simp [pyRstripSlash, String.data_append]

/-! ## C1 — fetch URL construction -/

/-- C1 (counterexample): with base URL `http://backend` and provider `cemc`,
the electric coordinator does not build `{base_url}/rates/{provider}/residential`
as the claim states — the code inserts an `electric` path segment. -/
theorem c1_counterexample :
    electricRatesUrl "http://backend" "cemc" ≠ "http://backend/rates/cemc/residential" := by
  decide

/-- C1 (amended): the electric fetch URL is
`{base_url}/rates/electric/{provider}/residential` and the water fetch URL is
`{base_url}/water/rates/{provider}`, with any trailing slash of `base_url`
stripped before concatenation; the config-flow validators build the same
URLs as the coordinators. -/
theorem c1_url_construction (base provider : String) :
    electricRatesUrl base provider
        = pyRstripSlash base ++ "/rates/electric/" ++ provider ++ "/residential"
    ∧ waterRatesUrl base provider
        = pyRstripSlash base ++ "/water/rates/" ++ provider
    ∧ validateElectricUrl base provider = electricRatesUrl base provider
    ∧ validateWaterUrl base provider = waterRatesUrl base provider
    ∧ electricRatesUrl (base ++ "/") provider = electricRatesUrl base provider
    ∧ waterRatesUrl (base ++ "/") provider = waterRatesUrl base provider := by
  refine ⟨rfl, rfl, rfl, rfl, ?_, ?_⟩ <;>
    simp [electricRatesUrl, waterRatesUrl, pyRstripSlash_append_slash]

/-! ## C10 — sensor availability mirrors the coordinator flag -/

/-- C10: every electric and water sensor's `available` equals the
coordinator's `last_update_success`; after a failed poll every sensor is
unavailable while the stale cached document is unchanged (and still the one
values are computed from). -/
theorem c10_availability (k : ElectricSensorKind) (k' : WaterSensorKind)
    (st : CoordinatorState) (e : UpdateErr) :
    electricSensorAvailable k st = st.last_update_success
    ∧ waterSensorAvailable k' st = st.last_update_success
    ∧ electricSensorAvailable k (applyRefresh st (.error e)) = false
    ∧ waterSensorAvailable k' (applyRefresh st (.error e)) = false
    ∧ (applyRefresh st (.error e)).data = st.data :=
  ⟨rfl, rfl, rfl, rfl, rfl⟩

/-! ## C4 — failed polls keep the cache, first fetch propagates -/

/-- C4: when a poll fails (any `UpdateFailed` from `_async_update_data`), the
previously cached document is left unchanged and `last_update_success` flips
false without anything raising out of the polling loop, while the very first
refresh propagates the same failure so setup aborts. -/
theorem c4_failed_poll (st : CoordinatorState) (f : FetchOutcome) (e : UpdateErr)
    (h : electricUpdateData f = .error e) :
    (applyRefresh st (electricUpdateData f)).data = st.data
    ∧ (applyRefresh st (electricUpdateData f)).last_update_success = false
    ∧ firstRefresh (electricUpdateData f) = .error e := by
  rw [h]; exact ⟨rfl, rfl, rfl⟩

/-- C4 witness: a 500 response on a coordinator holding a cached document. -/
theorem c4_failed_poll_witness :
    electricUpdateData (.response 500 (.ok (.jobj []))) = .error (.httpStatus 500)
    ∧ ((applyRefresh ⟨some [("k", .jnull)], true⟩
          (electricUpdateData (.response 500 (.ok (.jobj []))))).data
        = some [("k", .jnull)]
      ∧ (applyRefresh ⟨some [("k", .jnull)], true⟩
          (electricUpdateData (.response 500 (.ok (.jobj []))))).last_update_success
        = false
      ∧ firstRefresh (electricUpdateData (.response 500 (.ok (.jobj []))))
        = .error (.httpStatus 500)) :=
  ⟨rfl, c4_failed_poll ⟨some [("k", .jnull)], true⟩ (.response 500 (.ok (.jobj [])))
    (.httpStatus 500) rfl⟩

/-! ## C5 — the `is_present` gate -/

/-- C5: whenever `rates.residential_standard.is_present` is falsy (in
particular `false`, but also missing), every residential-gated electric
sensor — Total energy rate, Fixed customer charge, Energy price, Daily fixed
cost, Monthly fixed cost — reports Unknown. -/
theorem c5_is_present_gate (fs rts rsf : List (String × JValue))
    (h1 : jgetOpt fs "rates" = some (.jobj rts))
    (h2 : jgetOpt rts "residential_standard" = some (.jobj rsf))
    (h3 : (pyGet rsf "is_present").truthy = false) :
    energyRateValue (some fs) = .ok none
    ∧ fixedChargeValue (some fs) = .ok none
    ∧ energyPriceValue (some fs) = .ok none
    ∧ dailyFixedCostValue (some fs) = .ok none
    ∧ monthlyFixedCostValue (some fs) = .ok none := by
  have hrs : getResidentialStandard fs = .ok none := by
    rw [getRS_eval fs rts rsf h1 h2, h3]; rfl
  refine ⟨?_, ?_, ?_, ?_, ?_⟩ <;>
    simp [energyRateValue, fixedChargeValue, energyPriceValue, dailyFixedCostValue,
      monthlyFixedCostValue, coordDocOr, hrs]

/-- C5 witness: a document with `is_present = false` and otherwise complete
numeric fields. -/
theorem c5_is_present_gate_witness :
    energyRateValue (some [("rates", .jobj [("residential_standard", .jobj
        [("is_present", .jbool false), ("energy_rate_usd_per_kwh", .jnum (9/100)),
         ("tva_fuel_rate_usd_per_kwh", .jnum (2/100)),
         ("customer_charge_monthly_usd", .jnum 12)])])]) = .ok none
    ∧ fixedChargeValue (some [("rates", .jobj [("residential_standard", .jobj
        [("is_present", .jbool false), ("energy_rate_usd_per_kwh", .jnum (9/100)),
         ("tva_fuel_rate_usd_per_kwh", .jnum (2/100)),
         ("customer_charge_monthly_usd", .jnum 12)])])]) = .ok none
    ∧ energyPriceValue (some [("rates", .jobj [("residential_standard", .jobj
        [("is_present", .jbool false), ("energy_rate_usd_per_kwh", .jnum (9/100)),
         ("tva_fuel_rate_usd_per_kwh", .jnum (2/100)),
         ("customer_charge_monthly_usd", .jnum 12)])])]) = .ok none
    ∧ dailyFixedCostValue (some [("rates", .jobj [("residential_standard", .jobj
        [("is_present", .jbool false), ("energy_rate_usd_per_kwh", .jnum (9/100)),
         ("tva_fuel_rate_usd_per_kwh", .jnum (2/100)),
         ("customer_charge_monthly_usd", .jnum 12)])])]) = .ok none
    ∧ monthlyFixedCostValue (some [("rates", .jobj [("residential_standard", .jobj
        [("is_present", .jbool false), ("energy_rate_usd_per_kwh", .jnum (9/100)),
         ("tva_fuel_rate_usd_per_kwh", .jnum (2/100)),
         ("customer_charge_monthly_usd", .jnum 12)])])]) = .ok none :=
  c5_is_present_gate
    [("rates", .jobj [("residential_standard", .jobj
        [("is_present", .jbool false), ("energy_rate_usd_per_kwh", .jnum (9/100)),
         ("tva_fuel_rate_usd_per_kwh", .jnum (2/100)),
         ("customer_charge_monthly_usd", .jnum 12)])])]
    [("residential_standard", .jobj
        [("is_present", .jbool false), ("energy_rate_usd_per_kwh", .jnum (9/100)),
         ("tva_fuel_rate_usd_per_kwh", .jnum (2/100)),
         ("customer_charge_monthly_usd", .jnum 12)])]
    [("is_present", .jbool false), ("energy_rate_usd_per_kwh", .jnum (9/100)),
     ("tva_fuel_rate_usd_per_kwh", .jnum (2/100)),
     ("customer_charge_monthly_usd", .jnum 12)]
    rfl rfl rfl

/-! ## C3 — derived cost formulas -/

/-- C3: on a valid provider document (`is_present` truthy, numeric fields
present), the Energy price sensor is `round(energy_rate + tva_fuel_rate, 5)`
and the Daily fixed cost sensor is `round(customer_charge_monthly / 30, 5)`. -/
theorem c3_derived_costs (fs rts rsf : List (String × JValue)) (e f c : ℚ)
    (h1 : jgetOpt fs "rates" = some (.jobj rts))
    (h2 : jgetOpt rts "residential_standard" = some (.jobj rsf))
    (h3 : (pyGet rsf "is_present").truthy = true)
    (he : jgetOpt rsf "energy_rate_usd_per_kwh" = some (.jnum e))
    (hf : jgetOpt rsf "tva_fuel_rate_usd_per_kwh" = some (.jnum f))
    (hc : jgetOpt rsf "customer_charge_monthly_usd" = some (.jnum c)) :
    energyPriceValue (some fs) = .ok (some (pyRoundTo 5 (e + f)))
    ∧ dailyFixedCostValue (some fs) = .ok (some (pyRoundTo 5 (c / 30))) := by
  have hrs : getResidentialStandard fs = .ok (some (.jobj rsf)) := by
    rw [getRS_eval fs rts rsf h1 h2, h3]; rfl
  have htr : (JValue.jobj rsf).truthy = true := jobj_truthy_of_pyGet_truthy rsf "is_present" h3
  constructor <;>
    simp [energyPriceValue, dailyFixedCostValue, coordDocOr, hrs, htr,
      pyDictGetD, pyGetD, he, hf, hc, pyFloat]

/-- C3 witness: the specification's example document (`0.09 + 0.02` energy,
`12.0` monthly charge) — Energy price `0.11`, Daily fixed cost `0.4`. -/
theorem c3_derived_costs_witness :
    energyPriceValue (some [("rates", .jobj [("residential_standard", .jobj
        [("is_present", .jbool true), ("energy_rate_usd_per_kwh", .jnum (9/100)),
         ("tva_fuel_rate_usd_per_kwh", .jnum (2/100)),
         ("customer_charge_monthly_usd", .jnum 12)])]),
      ("fetched_at", .jstr "2024-01-01T00:00:00Z")])
      = .ok (some (pyRoundTo 5 (9/100 + 2/100)))
    ∧ dailyFixedCostValue (some [("rates", .jobj [("residential_standard", .jobj
        [("is_present", .jbool true), ("energy_rate_usd_per_kwh", .jnum (9/100)),
         ("tva_fuel_rate_usd_per_kwh", .jnum (2/100)),
         ("customer_charge_monthly_usd", .jnum 12)])]),
      ("fetched_at", .jstr "2024-01-01T00:00:00Z")])
      = .ok (some (pyRoundTo 5 (12/30))) :=
  c3_derived_costs
    [("rates", .jobj [("residential_standard", .jobj
        [("is_present", .jbool true), ("energy_rate_usd_per_kwh", .jnum (9/100)),
         ("tva_fuel_rate_usd_per_kwh", .jnum (2/100)),
         ("customer_charge_monthly_usd", .jnum 12)])]),
     ("fetched_at", .jstr "2024-01-01T00:00:00Z")]
    [("residential_standard", .jobj
        [("is_present", .jbool true), ("energy_rate_usd_per_kwh", .jnum (9/100)),
         ("tva_fuel_rate_usd_per_kwh", .jnum (2/100)),
         ("customer_charge_monthly_usd", .jnum 12)])]
    [("is_present", .jbool true), ("energy_rate_usd_per_kwh", .jnum (9/100)),
     ("tva_fuel_rate_usd_per_kwh", .jnum (2/100)),
     ("customer_charge_monthly_usd", .jnum 12)]
    (9/100) (2/100) 12
    rfl rfl rfl rfl rfl rfl

/-! ## C6 — sewer absent, water populated -/

/-- C6: a document with a water object but no `sewer` key makes both sewer
sensors report Unknown (presence is decided by the key's absence) while the
water sensors stay populated with the numeric `use_rate`/`base_charge`. -/
theorem c6_sewer_absent (fs w : List (String × JValue)) (u b : ℚ)
    (hns : jgetOpt fs "sewer" = none)
    (hw : jgetOpt fs "water" = some (.jobj w))
    (hu : jgetOpt w "use_rate" = some (.jnum u))
    (hb : jgetOpt w "base_charge" = some (.jnum b)) :
    sewerUsageRateValue (some fs) = .ok none
    ∧ sewerBaseChargeValue (some fs) = .ok none
    ∧ waterUsageRateValue (some fs) = .ok (some u)
    ∧ waterBaseChargeValue (some fs) = .ok (some b) := by
  refine ⟨?_, ?_, ?_, ?_⟩ <;>
    simp [sewerUsageRateValue, sewerBaseChargeValue, waterUsageRateValue,
      waterBaseChargeValue, coordDocOr, pyGet, hns, hw, hu, hb, JValue.truthy,
      pyOr_jobj, pyDictGet, pyFloat, tryFloatOrNone]

/-- C6 witness: the specification's example water document
(`use_rate 0.004`, `base_charge 15.0`, no `sewer` key). -/
theorem c6_sewer_absent_witness :
    sewerUsageRateValue (some [("water", .jobj
        [("use_rate", .jnum (4/1000)), ("base_charge", .jnum 15)])]) = .ok none
    ∧ sewerBaseChargeValue (some [("water", .jobj
        [("use_rate", .jnum (4/1000)), ("base_charge", .jnum 15)])]) = .ok none
    ∧ waterUsageRateValue (some [("water", .jobj
        [("use_rate", .jnum (4/1000)), ("base_charge", .jnum 15)])]) = .ok (some (4/1000))
    ∧ waterBaseChargeValue (some [("water", .jobj
        [("use_rate", .jnum (4/1000)), ("base_charge", .jnum 15)])]) = .ok (some 15) :=
  c6_sewer_absent
    [("water", .jobj [("use_rate", .jnum (4/1000)), ("base_charge", .jnum 15)])]
    [("use_rate", .jnum (4/1000)), ("base_charge", .jnum 15)]
    (4/1000) 15 rfl rfl rfl rfl

/-! ## C8 — purity of sensor projections -/

/-- C8 (counterexample): the Rates age sensor projects the same cached
document to different values at two different instants — it is not a pure
function of the document alone (it reads `datetime.now`). -/
theorem c8_counterexample :
    ratesAgeHoursValue 1704067200 (some [("fetched_at", JValue.jstr "2024-01-01T00:00:00Z")])
      ≠ ratesAgeHoursValue 1704070800 (some [("fetched_at", JValue.jstr "2024-01-01T00:00:00Z")]) := by
  have h1 : ratesAgeHoursValue 1704067200
      (some [("fetched_at", JValue.jstr "2024-01-01T00:00:00Z")]) = .ok (some 0) := by
    with_unfolding_all rfl
  have h2 : ratesAgeHoursValue 1704070800
      (some [("fetched_at", JValue.jstr "2024-01-01T00:00:00Z")]) = .ok (some 1) := by
    with_unfolding_all rfl
  intro h
  rw [h1, h2] at h
  simp at h

/-- C8 (amended): every sensor except the two Rates-age sensors is a pure
function of the cached document — its value does not depend on the clock —
and each age sensor is a pure function of the pair (document, current time),
so projecting twice at the same instant yields identical values. -/
theorem c8_projection_purity :
    (∀ (k : ElectricSensorKind) (n₁ n₂ : ℚ) (d : Option Doc),
        k ≠ ElectricSensorKind.ageHours →
          electricSensorValue k n₁ d = electricSensorValue k n₂ d)
    ∧ (∀ (k : WaterSensorKind) (n₁ n₂ : ℚ) (d : Option Doc),
        k ≠ WaterSensorKind.ageHours →
          waterSensorValue k n₁ d = waterSensorValue k n₂ d)
    ∧ (∀ (k : ElectricSensorKind) (k' : WaterSensorKind) (n : ℚ) (d : Option Doc),
        electricSensorValue k n d = electricSensorValue k n d
        ∧ waterSensorValue k' n d = waterSensorValue k' n d) := by
  refine ⟨?_, ?_, fun _ _ _ _ => ⟨rfl, rfl⟩⟩ <;>
    · intro k n₁ n₂ d h
      cases k <;> simp_all [electricSensorValue, waterSensorValue]

/-- C8 witness: the Total energy rate sensor projects an empty cache
identically at two different instants. -/
theorem c8_projection_purity_witness :
    electricSensorValue .totalRate 0 none = electricSensorValue .totalRate 86400 none :=
  c8_projection_purity.1 .totalRate 0 86400 none (by decide)

/-! ## C9 — provider discovery and the static fallback -/

/-- C9 (counterexample): when the discovery fetch itself fails — a transport
error or a non-200 status — step 1 re-shows the form with a
`cannot_connect` error instead of falling back to the static provider
table. -/
theorem c9_counterexample :
    stepUserElectric .transportError = .errorForm
    ∧ stepUserElectric (.response 503 (.ok (.jobj []))) = .errorForm :=
  ⟨rfl, rfl⟩

/-- C9 (amended): step 2's provider keys come from the `/providers`
(electric) and `/water/providers` (water) discovery endpoints, but a
`ValueError` from the discovery fetch (connection failure, non-200 status,
malformed JSON) re-shows the form and blocks progression.  The static table
is used instead only when the fetch succeeds but yields no providers, or
when a non-`ValueError` exception escapes response parsing (e.g. a non-dict
JSON body). -/
theorem c9_provider_discovery (base : String) (s : Nat) (body : Except Unit JValue)
    (hs : s ≠ 200) :
    electricProvidersUrl base = pyRstripSlash base ++ "/providers"
    ∧ waterProvidersUrl base = pyRstripSlash base ++ "/water/providers"
    ∧ stepUserElectric .transportError = .errorForm
    ∧ stepUserWater .transportError = .errorForm
    ∧ stepUserElectric (.response s body) = .errorForm
    ∧ stepUserWater (.response s body) = .errorForm
    ∧ fetchElectricProviders (.response 200 (.ok (.jobj []))) = .ok staticElectricProviders
    ∧ fetchWaterProviders (.response 200 (.ok (.jobj []))) = .ok staticWaterProviders
    ∧ stepUserElectric (.response 200 (.ok (.jnum 1))) = .proceed staticElectricProviders
    ∧ stepUserWater (.response 200 (.ok (.jnum 1))) = .proceed staticWaterProviders := by
  refine ⟨rfl, rfl, rfl, rfl, ?_, ?_, rfl, rfl, rfl, rfl⟩
  · simp only [stepUserElectric, fetchElectricProviders]
    by_cases h1 : s = 401 <;> by_cases h2 : s = 404 <;> simp [h1, h2, hs]
  · simp only [stepUserWater, fetchWaterProviders]
    by_cases h1 : s = 401 <;> by_cases h2 : s = 404 <;> simp [h1, h2, hs]

/-- C9 witness: a 500 discovery response blocks step 1 while an empty
providers payload falls back to the static table. -/
theorem c9_provider_discovery_witness :
    electricProvidersUrl "https://rates.example" 
        = pyRstripSlash "https://rates.example" ++ "/providers"
    ∧ waterProvidersUrl "https://rates.example"
        = pyRstripSlash "https://rates.example" ++ "/water/providers"
    ∧ stepUserElectric .transportError = .errorForm
    ∧ stepUserWater .transportError = .errorForm
    ∧ stepUserElectric (.response 500 (.ok (.jobj []))) = .errorForm
    ∧ stepUserWater (.response 500 (.ok (.jobj []))) = .errorForm
    ∧ fetchElectricProviders (.response 200 (.ok (.jobj []))) = .ok staticElectricProviders
    ∧ fetchWaterProviders (.response 200 (.ok (.jobj []))) = .ok staticWaterProviders
    ∧ stepUserElectric (.response 200 (.ok (.jnum 1))) = .proceed staticElectricProviders
    ∧ stepUserWater (.response 200 (.ok (.jnum 1))) = .proceed staticWaterProviders :=
  c9_provider_discovery "https://rates.example" 500 (.ok (.jobj [])) (by decide)

/-! ## C7 — error taxonomy of the fetch operations -/

/-- C7 (counterexample): the polling fetch does not fail on a JSON object
missing the required top-level key: a 200 response whose body is
`{"foo": 1}` — no `rates` key — is accepted by the electric coordinator. -/
theorem c7_counterexample :
    electricUpdateData (.response 200 (.ok (.jobj [("foo", .jnum 1)])))
      = .ok [("foo", .jnum 1)] := rfl

/-- C7 (amended): both fetch paths fail with a status-carrying error on any
non-200 response and with a connection-style error on transport failure or
malformed JSON; a body that is not a JSON object fails the polling fetch;
but the required top-level key (`rates`/`water`) is checked only by the
setup-validation fetch — the polling fetch accepts any JSON object without
it. -/
theorem c7_error_taxonomy (s : Nat) (body : Except Unit JValue) (v : JValue)
    (fs : List (String × JValue)) (pk : String)
    (hs : s ≠ 200)
    (hv : ∀ l, v ≠ JValue.jobj l)
    (hkr : fs.any (fun p => p.fst == "rates") = false)
    (hkw : fs.any (fun p => p.fst == "water") = false) :
    electricUpdateData (.response s body) = .error (.httpStatus s)
    ∧ waterUpdateData (.response s body) = .error (.httpStatus s)
    ∧ electricUpdateData .transportError = .error .fetchException
    ∧ electricUpdateData (.response 200 (.error ())) = .error .fetchException
    ∧ electricUpdateData (.response 200 (.ok v)) = .error .notJsonObject
    ∧ waterUpdateData (.response 200 (.ok v)) = .error .notJsonObject
    ∧ electricUpdateData (.response 200 (.ok (.jobj fs))) = .ok fs
    ∧ waterUpdateData (.response 200 (.ok (.jobj fs))) = .ok fs
    ∧ validateElectricProvider pk (.response s body)
        = .error (if s = 401 then .unauthorized
                  else if s = 404 then .providerNotFound
                  else .httpStatus s)
    ∧ validateElectricProvider pk .transportError = .error .connectionError
    ∧ validateWaterProvider pk .transportError = .error .connectionError
    ∧ validateElectricProvider pk (.response 200 (.error ())) = .error .connectionError
    ∧ validateElectricProvider pk (.response 200 (.ok (.jobj fs))) = .error .missingKey
    ∧ validateWaterProvider pk (.response 200 (.ok (.jobj fs))) = .error .missingKey := by
  refine ⟨?_, ?_, rfl, rfl, ?_, ?_, rfl, rfl, ?_, rfl, rfl, rfl, ?_, ?_⟩
  · simp [electricUpdateData, hs]
  · simp [waterUpdateData, hs]
  · cases v <;> simp_all [electricUpdateData]
  · cases v <;> simp_all [waterUpdateData]
  · simp only [validateElectricProvider]
    by_cases h1 : s = 401 <;> by_cases h2 : s = 404 <;> simp [h1, h2, hs]
  · simp [validateElectricProvider, pyContains, hkr]
  · simp [validateWaterProvider, pyContains, hkw]

/-- C7 witness: a 500 response, a JSON-array body and a keyless object body
exercise every hypothesis. -/
theorem c7_error_taxonomy_witness :
    electricUpdateData (.response 500 (.ok (.jobj []))) = .error (.httpStatus 500)
    ∧ waterUpdateData (.response 500 (.ok (.jobj []))) = .error (.httpStatus 500)
    ∧ electricUpdateData .transportError = .error .fetchException
    ∧ electricUpdateData (.response 200 (.error ())) = .error .fetchException
    ∧ electricUpdateData (.response 200 (.ok (.jarr []))) = .error .notJsonObject
    ∧ waterUpdateData (.response 200 (.ok (.jarr []))) = .error .notJsonObject
    ∧ electricUpdateData (.response 200 (.ok (.jobj [("foo", .jnum 1)])))
        = .ok [("foo", .jnum 1)]
    ∧ waterUpdateData (.response 200 (.ok (.jobj [("foo", .jnum 1)])))
        = .ok [("foo", .jnum 1)]
    ∧ validateElectricProvider "cemc" (.response 500 (.ok (.jobj [])))
        = .error (if (500 : Nat) = 401 then .unauthorized
                  else if (500 : Nat) = 404 then .providerNotFound
                  else .httpStatus 500)
    ∧ validateElectricProvider "cemc" .transportError = .error .connectionError
    ∧ validateWaterProvider "whud" .transportError = .error .connectionError
    ∧ validateElectricProvider "cemc" (.response 200 (.error ())) = .error .connectionError
    ∧ validateElectricProvider "cemc" (.response 200 (.ok (.jobj [("foo", .jnum 1)])))
        = .error .missingKey
    ∧ validateWaterProvider "whud" (.response 200 (.ok (.jobj [("foo", .jnum 1)])))
        = .error .missingKey := by
  have h := c7_error_taxonomy 500 (.ok (.jobj [])) (.jarr []) [("foo", .jnum 1)] "cemc"
    (by decide) (by intro l h; cases h) (by rfl) (by rfl)
  refine ⟨h.1, h.2.1, h.2.2.1, h.2.2.2.1, h.2.2.2.2.1, h.2.2.2.2.2.1,
    h.2.2.2.2.2.2.1, h.2.2.2.2.2.2.2.1, h.2.2.2.2.2.2.2.2.1,
    h.2.2.2.2.2.2.2.2.2.1, ?_, h.2.2.2.2.2.2.2.2.2.2.2.1,
    h.2.2.2.2.2.2.2.2.2.2.2.2.1, ?_⟩
  · exact (c7_error_taxonomy 500 (.ok (.jobj [])) (.jarr []) [("foo", .jnum 1)] "whud"
      (by decide) (by intro l h; cases h) (by rfl) (by rfl)).2.2.2.2.2.2.2.2.2.2.1
  · exact (c7_error_taxonomy 500 (.ok (.jobj [])) (.jarr []) [("foo", .jnum 1)] "whud"
      (by decide) (by intro l h; cases h) (by rfl) (by rfl)).2.2.2.2.2.2.2.2.2.2.2.2.2

/-! ## C2 — sensor projections, exceptions and Unknown -/

/-- Whether an embedded computation completed without raising. -/
def exOk {α : Type} : Except PyErr α → Bool
  | .ok _ => true
  | .error _ => false

/-- A value that can safely stand where the code does `x.get(...)` after an
`or {}` default: a dict, or falsy (so the `{}` default is taken). -/
def dictLike (v : JValue) : Bool :=
  match v with
  | .jobj _ => true
  | _ => !v.truthy

/-- The guarded float idiom never raises. -/
theorem tryFloatOrNone_ok (v : JValue) : exOk (tryFloatOrNone v) = true := by
  cases v with
  | jstr s => cases hp : parseFloatString s <;> simp [tryFloatOrNone, pyFloat, hp, exOk]
  | jnull => rfl
  | jbool b => rfl
  | jnum q => rfl
  | jarr items => rfl
  | jobj fields => rfl

/-- A truthy dict-like value is an object. -/
theorem dictLike_truthy_obj (v : JValue) (h : dictLike v = true)
    (ht : v.truthy = true) : ∃ l, v = .jobj l := by
  cases v <;> simp_all [dictLike]

/-- A dict-like value turns into an object after the `or {}` default. -/
theorem pyOr_default_obj (v : JValue) (h : dictLike v = true) :
    ∃ l, pyOr v (.jobj []) = .jobj l := by
  by_cases ht : v.truthy = true
  · obtain ⟨l, rfl⟩ := dictLike_truthy_obj v h ht
    exact ⟨l, by simp [pyOr, ht]⟩
  · exact ⟨[], by simp [pyOr, ht]⟩

/-- The gate returns `some` only for objects. -/
theorem getRS_ok_some_obj (d : Doc) (rs : JValue)
    (h : getResidentialStandard d = .ok (some rs)) : ∃ l, rs = .jobj l := by
  simp only [getResidentialStandard] at h
  cases hr : pyDictGet (pyOr (pyGet d "rates") (.jobj [])) "residential_standard" with
  | error e => rw [hr] at h; simp at h
  | ok rsRaw =>
      rw [hr] at h
      dsimp only at h
      cases hp : pyDictGet (pyOr rsRaw (.jobj [])) "is_present" with
      | error e => rw [hp] at h; simp at h
      | ok isp =>
          rw [hp] at h
          dsimp only at h
          by_cases ht : isp.truthy = true
          · simp [ht] at h
            obtain ⟨l, hl⟩ := pyDictGet_ok_obj _ _ _ hp
            subst h
            exact ⟨l, hl⟩
          · simp [ht] at h

/-- C2 (counterexample): on a cached document whose energy-rate field holds
the non-numeric string `"abc"` (with `is_present` true), the Energy price
sensor raises `ValueError` out of `float(...)` instead of reporting
Unknown. -/
theorem c2_counterexample :
    energyPriceValue (some [("rates", .jobj [("residential_standard", .jobj
        [("is_present", .jbool true), ("energy_rate_usd_per_kwh", .jstr "abc")])])])
      = .error .valueError := by
  with_unfolding_all rfl

/-- C2 (amended): provided the `rates`/`residential_standard` walk and the
`water`/`sewer` entries are dict-shaped (objects, or absent/falsy), every
sensor except Energy price, Daily fixed cost and Monthly fixed cost returns
a value or Unknown and never raises, so no projection failure disables the
entity set.  The per-sensor Unknown policy does not hold as stated: the
three excepted sensors call `float` unguarded — raising on a present
non-numeric field — and the Total energy rate sensor defaults a missing
energy or fuel field to 0 via `or 0.0`, returning the remaining summand
(here the fuel-only sum) rather than Unknown. -/
theorem c2_sensor_safety :
    (∀ (cdata : Option Doc) (now : ℚ),
      exOk (getResidentialStandard (coordDocOr cdata)) = true →
      dictLike (pyGet (coordDocOr cdata) "water") = true →
      dictLike (pyGet (coordDocOr cdata) "sewer") = true →
      exOk (energyRateValue cdata) = true
      ∧ exOk (fixedChargeValue cdata) = true
      ∧ exOk (ratesLastRefreshValue cdata) = true
      ∧ exOk (ratesAgeHoursValue now cdata) = true
      ∧ exOk (waterUsageRateValue cdata) = true
      ∧ exOk (waterBaseChargeValue cdata) = true
      ∧ exOk (sewerUsageRateValue cdata) = true
      ∧ exOk (sewerBaseChargeValue cdata) = true
      ∧ exOk (waterRatesLastRefreshValue cdata) = true
      ∧ exOk (waterRatesAgeHoursValue now cdata) = true)
    ∧ (∀ (fs rts rsf : List (String × JValue)) (f : ℚ),
      jgetOpt fs "rates" = some (.jobj rts) →
      jgetOpt rts "residential_standard" = some (.jobj rsf) →
      (pyGet rsf "is_present").truthy = true →
      jgetOpt rsf "energy_rate_usd_per_kwh" = none →
      jgetOpt rsf "tva_fuel_rate_usd_per_kwh" = some (.jnum f) →
      energyRateValue (some fs) = .ok (some (0 + f))) := by
  constructor
  · intro cdata now hrs hw hsw
    refine ⟨?_, ?_, rfl, rfl, ?_, ?_, ?_, ?_, rfl, rfl⟩
    · simp only [energyRateValue]
      cases hg : getResidentialStandard (coordDocOr cdata) with
      | error e => rw [hg] at hrs; simp [exOk] at hrs
      | ok o =>
          cases o with
          | none => simp [exOk]
          | some rs =>
              obtain ⟨l, rfl⟩ := getRS_ok_some_obj _ _ hg
              cases htb : (JValue.jobj l).truthy
              · simp [htb, exOk]
              · cases hp1 : pyFloat (pyOr (pyGet l "energy_rate_usd_per_kwh") (.jnum 0)) <;>
                  cases hp2 : pyFloat (pyOr (pyGet l "tva_fuel_rate_usd_per_kwh") (.jnum 0)) <;>
                    simp [htb, pyDictGet, hp1, hp2, exOk]
    · simp only [fixedChargeValue]
      cases hg : getResidentialStandard (coordDocOr cdata) with
      | error e => rw [hg] at hrs; simp [exOk] at hrs
      | ok o =>
          cases o with
          | none => simp [exOk]
          | some rs =>
              obtain ⟨l, rfl⟩ := getRS_ok_some_obj _ _ hg
              cases htb : (JValue.jobj l).truthy
              · simp [htb, exOk]
              · simp [htb, pyDictGet]
                exact tryFloatOrNone_ok _
    · obtain ⟨l, hl⟩ := pyOr_default_obj _ hw
      simp only [waterUsageRateValue]
      rw [hl]
      simp [pyDictGet, tryFloatOrNone_ok]
    · obtain ⟨l, hl⟩ := pyOr_default_obj _ hw
      simp only [waterBaseChargeValue]
      rw [hl]
      simp [pyDictGet, tryFloatOrNone_ok]
    · simp only [sewerUsageRateValue]
      cases htb : (pyGet (coordDocOr cdata) "sewer").truthy
      · simp [htb, exOk]
      · obtain ⟨l, hl⟩ := dictLike_truthy_obj _ hsw htb
        simp [hl, htb, pyDictGet, tryFloatOrNone_ok]
    · simp only [sewerBaseChargeValue]
      cases htb : (pyGet (coordDocOr cdata) "sewer").truthy
      · simp [htb, exOk]
      · obtain ⟨l, hl⟩ := dictLike_truthy_obj _ hsw htb
        simp [hl, htb, pyDictGet, tryFloatOrNone_ok]
  · intro fs rts rsf f h1 h2 h3 he hf
    have hrsv : getResidentialStandard fs = .ok (some (.jobj rsf)) := by
      rw [getRS_eval fs rts rsf h1 h2, h3]; rfl
    have hne : rsf ≠ [] := by
      intro h0; rw [h0] at h3; simp [pyGet, jgetOpt, JValue.truthy] at h3
    rcases eq_or_ne f 0 with rfl | hf0
    · simp [energyRateValue, coordDocOr, hrsv, hne, pyDictGet, pyGet, he, hf,
        pyOr, pyFloat, JValue.truthy]
    · simp [energyRateValue, coordDocOr, hrsv, hne, pyDictGet, pyGet, he, hf,
        pyOr, pyFloat, JValue.truthy, hf0]

/-- C2 witness: a fully populated electric+water document with no `sewer`
key — every guarded sensor projects it without raising — and a document with
a missing energy-rate key, where the Total energy rate sensor returns the
fuel-only sum instead of Unknown. -/
theorem c2_sensor_safety_witness :
    (exOk (energyRateValue (some [("rates", .jobj [("residential_standard", .jobj
        [("is_present", .jbool true), ("energy_rate_usd_per_kwh", .jnum (9/100)),
         ("tva_fuel_rate_usd_per_kwh", .jnum (2/100)),
         ("customer_charge_monthly_usd", .jnum 12)])]),
      ("fetched_at", .jstr "2024-01-01T00:00:00Z"),
      ("water", .jobj [("use_rate", .jnum (4/1000)), ("base_charge", .jnum 15)])])) = true
    ∧ exOk (fixedChargeValue (some [("rates", .jobj [("residential_standard", .jobj
        [("is_present", .jbool true), ("energy_rate_usd_per_kwh", .jnum (9/100)),
         ("tva_fuel_rate_usd_per_kwh", .jnum (2/100)),
         ("customer_charge_monthly_usd", .jnum 12)])]),
      ("fetched_at", .jstr "2024-01-01T00:00:00Z"),
      ("water", .jobj [("use_rate", .jnum (4/1000)), ("base_charge", .jnum 15)])])) = true
    ∧ exOk (ratesLastRefreshValue (some [("rates", .jobj [("residential_standard", .jobj
        [("is_present", .jbool true), ("energy_rate_usd_per_kwh", .jnum (9/100)),
         ("tva_fuel_rate_usd_per_kwh", .jnum (2/100)),
         ("customer_charge_monthly_usd", .jnum 12)])]),
      ("fetched_at", .jstr "2024-01-01T00:00:00Z"),
      ("water", .jobj [("use_rate", .jnum (4/1000)), ("base_charge", .jnum 15)])])) = true
    ∧ exOk (ratesAgeHoursValue 1704067200 (some [("rates", .jobj [("residential_standard", .jobj
        [("is_present", .jbool true), ("energy_rate_usd_per_kwh", .jnum (9/100)),
         ("tva_fuel_rate_usd_per_kwh", .jnum (2/100)),
         ("customer_charge_monthly_usd", .jnum 12)])]),
      ("fetched_at", .jstr "2024-01-01T00:00:00Z"),
      ("water", .jobj [("use_rate", .jnum (4/1000)), ("base_charge", .jnum 15)])])) = true
    ∧ exOk (waterUsageRateValue (some [("rates", .jobj [("residential_standard", .jobj
        [("is_present", .jbool true), ("energy_rate_usd_per_kwh", .jnum (9/100)),
         ("tva_fuel_rate_usd_per_kwh", .jnum (2/100)),
         ("customer_charge_monthly_usd", .jnum 12)])]),
      ("fetched_at", .jstr "2024-01-01T00:00:00Z"),
      ("water", .jobj [("use_rate", .jnum (4/1000)), ("base_charge", .jnum 15)])])) = true
    ∧ exOk (waterBaseChargeValue (some [("rates", .jobj [("residential_standard", .jobj
        [("is_present", .jbool true), ("energy_rate_usd_per_kwh", .jnum (9/100)),
         ("tva_fuel_rate_usd_per_kwh", .jnum (2/100)),
         ("customer_charge_monthly_usd", .jnum 12)])]),
      ("fetched_at", .jstr "2024-01-01T00:00:00Z"),
      ("water", .jobj [("use_rate", .jnum (4/1000)), ("base_charge", .jnum 15)])])) = true
    ∧ exOk (sewerUsageRateValue (some [("rates", .jobj [("residential_standard", .jobj
        [("is_present", .jbool true), ("energy_rate_usd_per_kwh", .jnum (9/100)),
         ("tva_fuel_rate_usd_per_kwh", .jnum (2/100)),
         ("customer_charge_monthly_usd", .jnum 12)])]),
      ("fetched_at", .jstr "2024-01-01T00:00:00Z"),
      ("water", .jobj [("use_rate", .jnum (4/1000)), ("base_charge", .jnum 15)])])) = true
    ∧ exOk (sewerBaseChargeValue (some [("rates", .jobj [("residential_standard", .jobj
        [("is_present", .jbool true), ("energy_rate_usd_per_kwh", .jnum (9/100)),
         ("tva_fuel_rate_usd_per_kwh", .jnum (2/100)),
         ("customer_charge_monthly_usd", .jnum 12)])]),
      ("fetched_at", .jstr "2024-01-01T00:00:00Z"),
      ("water", .jobj [("use_rate", .jnum (4/1000)), ("base_charge", .jnum 15)])])) = true
    ∧ exOk (waterRatesLastRefreshValue (some [("rates", .jobj [("residential_standard", .jobj
        [("is_present", .jbool true), ("energy_rate_usd_per_kwh", .jnum (9/100)),
         ("tva_fuel_rate_usd_per_kwh", .jnum (2/100)),
         ("customer_charge_monthly_usd", .jnum 12)])]),
      ("fetched_at", .jstr "2024-01-01T00:00:00Z"),
      ("water", .jobj [("use_rate", .jnum (4/1000)), ("base_charge", .jnum 15)])])) = true
    ∧ exOk (waterRatesAgeHoursValue 1704067200 (some [("rates", .jobj [("residential_standard", .jobj
        [("is_present", .jbool true), ("energy_rate_usd_per_kwh", .jnum (9/100)),
         ("tva_fuel_rate_usd_per_kwh", .jnum (2/100)),
         ("customer_charge_monthly_usd", .jnum 12)])]),
      ("fetched_at", .jstr "2024-01-01T00:00:00Z"),
      ("water", .jobj [("use_rate", .jnum (4/1000)), ("base_charge", .jnum 15)])])) = true)
    ∧ energyRateValue (some [("rates", .jobj [("residential_standard", .jobj
        [("is_present", .jbool true), ("tva_fuel_rate_usd_per_kwh", .jnum (2/100))])])])
      = .ok (some (0 + 2/100)) :=
  ⟨c2_sensor_safety.1
    (some [("rates", .jobj [("residential_standard", .jobj
        [("is_present", .jbool true), ("energy_rate_usd_per_kwh", .jnum (9/100)),
         ("tva_fuel_rate_usd_per_kwh", .jnum (2/100)),
         ("customer_charge_monthly_usd", .jnum 12)])]),
      ("fetched_at", .jstr "2024-01-01T00:00:00Z"),
      ("water", .jobj [("use_rate", .jnum (4/1000)), ("base_charge", .jnum 15)])])
    1704067200
    (by with_unfolding_all rfl) (by with_unfolding_all rfl) (by with_unfolding_all rfl),
   c2_sensor_safety.2
    [("rates", .jobj [("residential_standard", .jobj
        [("is_present", .jbool true), ("tva_fuel_rate_usd_per_kwh", .jnum (2/100))])])]
    [("residential_standard", .jobj
        [("is_present", .jbool true), ("tva_fuel_rate_usd_per_kwh", .jnum (2/100))])]
    [("is_present", .jbool true), ("tva_fuel_rate_usd_per_kwh", .jnum (2/100))]
    (2/100) rfl rfl rfl rfl rfl⟩
